import Mathlib

/-!
Shallow embedding of the SecureBlog identity-verification subsystem.

The definitions below are translated from the repository source:
* `src/server/routes/posts.js` (second concatenated file, the auth router):
  `/register`, `/verify-otp`, `/login`, `/logout`, `/resend-otp` handlers;
* `src/server/routes/admin.js`: role update and user deletion;
* `src/unnamed/part_000` (`config/security.js`): the OTP rate-limiter configuration;
* `src/unnamed/part_001` (`services/otpService.js`): the service-layer `verifyOTP`
  over the module-level `otpStore` map.

Time is modelled as a `Nat` of milliseconds; Mongo documents become Lean
structures; the user collection becomes a `List User` where `findOne` is
`List.find?` (first match) and a `save` of a found document replaces the
first matching element.
-/

namespace SecureBlog

/-- The role strings accepted by the server (`['admin', 'author', 'reader']`). -/
inductive Role where
  | reader
  | author
  | admin
deriving DecidableEq, Repr

/-- Numeric tag used when a role is embedded into a signed token payload. -/
def Role.tag : Role → Nat
  | .reader => 0
  | .author => 1
  | .admin => 2

/-- Decode a numeric role tag back into a role. -/
def roleOfTag : Nat → Option Role
  | 0 => some .reader
  | 1 => some .author
  | 2 => some .admin
  | _ => none

/-- The `otp` subdocument stored on a user: `{ code, expiresAt }`. -/
structure OtpChallenge where
  code : String
  expiresAt : Nat
deriving DecidableEq, Repr

/-- A document of the Mongo `User` collection.  The `password` field models the
stored (hashed) secret. -/
structure User where
  id : Nat
  username : String
  email : String
  password : String
  role : Role
  isVerified : Bool
  otp : Option OtpChallenge
deriving DecidableEq, Repr

/-- The user collection. -/
abbrev Store := List User

/-- Process environment: `NODE_ENV === 'production'`, `JWT_SECRET`,
`JWT_EXPIRES_IN`. -/
structure Env where
  production : Bool
  jwtSecret : Nat
  jwtTtlMs : Nat
deriving DecidableEq, Repr

/-- The public identity summary returned on success
(`{ id, username, email, role }` — never the password hash). -/
structure PublicUser where
  id : Nat
  username : String
  email : String
  role : Role
deriving DecidableEq, Repr

/-- Projection of a user to its public summary, as built inline in the
`/verify-otp` and `/login` handlers. -/
def User.summary (u : User) : PublicUser :=
  ⟨u.id, u.username, u.email, u.role⟩

/-- The OTP validity window used by `/register` and `/resend-otp`:
`10 * 60 * 1000` milliseconds. -/
def otpTtlMs : Nat := 10 * 60 * 1000

/-- Modelled from the spec: the signature of a stateless session token
(`jsonwebtoken` is library code, not part of this repository).  Any function
of the secret and the payload serves the model; verification recomputes it. -/
def sigOf (secret subId roleTag expiresAt : Nat) : Nat :=
  secret + 1000003 * subId + 2000003 * roleTag + 3000017 * expiresAt

/-- A signed session token: payload `{ id, role }` plus expiry and signature. -/
structure SignedToken where
  subId : Nat
  roleTag : Nat
  expiresAt : Nat
  sig : Nat
deriving DecidableEq, Repr

/-- Modelled from the spec: `jwt.sign({ id, role }, secret, { expiresIn })` —
mints a token whose encoded expiry is `now + ttlMs` (spec section 4.3). -/
def mint (secret subId : Nat) (role : Role) (ttlMs now : Nat) : SignedToken :=
  ⟨subId, role.tag, now + ttlMs, sigOf secret subId role.tag (now + ttlMs)⟩

/-- Outcomes of token verification (spec section 4.3). -/
inductive TokenCheck where
  | ok (id : Nat) (role : Role)
  | tokenExpired
  | badSignature
  | malformed
deriving DecidableEq, Repr

/-- Modelled from the spec: `jwt.verify` — checks the signature against the
secret, then the encoded expiry against the current time, then decodes the
payload (spec section 4.3). -/
def verifyToken (secret : Nat) (tok : SignedToken) (now : Nat) : TokenCheck :=
  if tok.sig ≠ sigOf secret tok.subId tok.roleTag tok.expiresAt then .badSignature
  else if tok.expiresAt ≤ now then .tokenExpired
  else
    match roleOfTag tok.roleTag with
    | some r => .ok tok.subId r
    | none => .malformed

/-- Modelled from the spec: `User.correctPassword(candidate, stored)`
(`models/User.js` is not under `src/`; per spec section 4.1 it is a bcrypt
comparison of the candidate against the stored secret, modelled as a match
of the candidate against the stored secret). -/
def correctPassword (candidate stored : String) : Bool :=
  candidate == stored

/-- Replace the first element satisfying `p` by its image under `f`
(a `findOne` followed by a `save` of the found document). -/
def updateFirst (p : User → Bool) (f : User → User) : Store → Store
  | [] => []
  | u :: us => if p u then f u :: us else u :: updateFirst p f us

/-- Outcomes of the `/register` handler. -/
inductive RegisterResult where
  | adminBlocked
  | duplicateUser
  | created
deriving DecidableEq, Repr

/-- The `/register` handler (auth router).  Returns the result, the updated
store, and the notification dispatched to the mail service (`sendOTP(email,
otpCode)`), if any.  `freshId` is the id Mongo assigns to the new document
and `otpCode` the value of `generateOTP()`. -/
def register (env : Env) (freshId : Nat) (otpCode : String) (now : Nat)
    (username email password : String) (role : Role) (s : Store) :
    RegisterResult × Store × Option (String × String) :=
  if role = Role.admin ∧ env.production = true then
    (.adminBlocked, s, none)
  else
    match s.find? (fun u => u.email == email || u.username == username) with
    | some _ => (.duplicateUser, s, none)
    | none =>
        (.created,
         s ++ [⟨freshId, username, email, password, role, false,
                some ⟨otpCode, now + otpTtlMs⟩⟩],
         some (email, otpCode))

/-- Outcomes of the `/verify-otp` handler. -/
inductive VerifyOtpResult where
  | missingFields
  | userNotFound
  | invalidOtp
  | otpExpired
  | verified (token : SignedToken) (user : PublicUser)
deriving DecidableEq, Repr

/-- `true` exactly on the `Valid` outcome. -/
def VerifyOtpResult.isValid : VerifyOtpResult → Bool
  | .verified _ _ => true
  | _ => false

/-- The `/verify-otp` handler (auth router).  The checks appear in source
order: missing fields, user lookup, `!user.otp || user.otp.code !== otp`,
`user.otp.expiresAt < new Date()`, then the success path which sets
`isVerified`, clears `otp`, saves, and mints a token. -/
def verifyOtp (env : Env) (now : Nat) (email code : String) (s : Store) :
    VerifyOtpResult × Store :=
  if email = "" ∨ code = "" then (.missingFields, s)
  else
    match s.find? (fun u => u.email == email) with
    | none => (.userNotFound, s)
    | some u =>
        match u.otp with
        | none => (.invalidOtp, s)
        | some ch =>
            if ch.code ≠ code then (.invalidOtp, s)
            else if ch.expiresAt < now then (.otpExpired, s)
            else
              (.verified (mint env.jwtSecret u.id u.role env.jwtTtlMs now) u.summary,
               updateFirst (fun v => v.email == email)
                 (fun v => { v with isVerified := true, otp := none }) s)

/-- The id of the user `/verify-otp` would operate on for a given email. -/
def foundId (s : Store) (email : String) : Option Nat :=
  (s.find? (fun u => u.email == email)).map (fun u => u.id)

/-- Outcomes of the `/login` handler. -/
inductive LoginResult where
  | invalidCredential
  | unverified
  | loggedIn (token : SignedToken) (user : PublicUser)
deriving DecidableEq, Repr

/-- The `/login` handler (auth router): `!user || !correctPassword` collapses
unknown email and wrong password into one branch; an unverified account is
rejected with a `requiresVerification` flag; otherwise a token is minted. -/
def login (env : Env) (now : Nat) (email password : String) (s : Store) :
    LoginResult :=
  match s.find? (fun u => u.email == email) with
  | none => .invalidCredential
  | some u =>
      if correctPassword password u.password = false then .invalidCredential
      else if u.isVerified = false then .unverified
      else .loggedIn (mint env.jwtSecret u.id u.role env.jwtTtlMs now) u.summary

/-- Outcomes of the `/resend-otp` handler. -/
inductive ResendResult where
  | missingEmail
  | userNotFound
  | alreadyVerified
  | resent
deriving DecidableEq, Repr

/-- The `/resend-otp` handler (auth router): requires an email, an existing
user, and `!user.isVerified`; then overwrites `user.otp` with a fresh code
and TTL and saves. -/
def resendOtp (newCode : String) (now : Nat) (email : String) (s : Store) :
    ResendResult × Store :=
  if email = "" then (.missingEmail, s)
  else
    match s.find? (fun u => u.email == email) with
    | none => (.userNotFound, s)
    | some u =>
        if u.isVerified = true then (.alreadyVerified, s)
        else
          (.resent,
           updateFirst (fun v => v.email == email)
             (fun v => { v with otp := some ⟨newCode, now + otpTtlMs⟩ }) s)

/-- The `PATCH /users/:id/role` admin handler: the role string is validated
(here by the `Role` type), a self-change is rejected without mutation, and
otherwise `findByIdAndUpdate` sets the role of the target document. -/
def adminUpdateRole (actingId targetId : Nat) (newRole : Role) (s : Store) :
    Store :=
  if targetId = actingId then s
  else s.map (fun u => if u.id = targetId then { u with role := newRole } else u)

/-- The `DELETE /users/:id` admin handler: a self-delete is rejected without
mutation, otherwise `findByIdAndDelete` removes the document with that id. -/
def adminDeleteUser (actingId targetId : Nat) (s : Store) : Store :=
  if targetId = actingId then s
  else s.filter (fun u => u.id != targetId)

/-- One request against the server, with all request data and ambient values
(fresh ids, generated codes, clock readings) carried in the operation. -/
inductive AuthOp where
  | registerOp (freshId : Nat) (code : String) (now : Nat)
      (username email password : String) (role : Role)
  | verifyOtpOp (now : Nat) (email code : String)
  | resendOtpOp (code : String) (now : Nat) (email : String)
  | loginOp (email password : String)
  | logoutOp
  | updateRoleOp (actingId targetId : Nat) (role : Role)
  | deleteUserOp (actingId targetId : Nat)

/-- Effect of one operation on the user collection.  `/login` and `/logout`
perform no store writes. -/
def applyOp (env : Env) : AuthOp → Store → Store
  | .registerOp fid code now un em pw r, s => (register env fid code now un em pw r s).2.1
  | .verifyOtpOp now em c, s => (verifyOtp env now em c s).2
  | .resendOtpOp c now em, s => (resendOtp c now em s).2
  | .loginOp _ _, s => s
  | .logoutOp, s => s
  | .updateRoleOp a t r, s => adminUpdateRole a t r s
  | .deleteUserOp a t, s => adminDeleteUser a t s

/-- Effect of a sequence of operations on the user collection. -/
def applyOps (env : Env) (tr : List AuthOp) (s : Store) : Store :=
  tr.foldl (fun st op => applyOp env op st) s

/-- The operation does not register a new document under id `i`
(Mongo object ids are never reused). -/
def opAvoidsId (i : Nat) : AuthOp → Bool
  | .registerOp fid _ _ _ _ _ _ => fid != i
  | _ => true

/-- The operation registers no document under an id already present in `s`
(freshness of Mongo object ids). -/
def opIdFresh : AuthOp → Store → Prop
  | .registerOp fid _ _ _ _ _ _, s => ∀ w ∈ s, w.id ≠ fid
  | _, _ => True

/-- Identity `i` has consumed its challenge: every document with that id is
verified and carries no OTP. -/
def consumedFor (i : Nat) (s : Store) : Prop :=
  ∀ u, u ∈ s → u.id = i → u.isVerified = true ∧ u.otp = none

/-- The caller-visible JSON response: `status` and `message` fields of the
body, the HTTP status code, and the optional `requiresVerification`, `token`
and `user` body fields. -/
structure ApiResponse where
  status : String
  httpCode : Nat
  message : String
  requiresVerification : Option Bool
  token : Option SignedToken
  user : Option PublicUser
deriving DecidableEq, Repr

/-- The outward response of each `/verify-otp` outcome, with the literal
status codes and messages of the handler. -/
def verifyOtpResponse : VerifyOtpResult → ApiResponse
  | .missingFields => ⟨"fail", 400, "Email and OTP are required", none, none, none⟩
  | .userNotFound => ⟨"fail", 404, "User not found", none, none, none⟩
  | .invalidOtp => ⟨"fail", 400, "Invalid OTP", none, none, none⟩
  | .otpExpired => ⟨"fail", 400, "OTP has expired", none, none, none⟩
  | .verified t u =>
      ⟨"success", 200, "Account verified successfully", none, some t, some u⟩

/-- The outward response of each `/login` outcome, with the literal status
codes and messages of the handler. -/
def loginResponse : LoginResult → ApiResponse
  | .invalidCredential => ⟨"fail", 401, "Incorrect email or password", none, none, none⟩
  | .unverified =>
      ⟨"fail", 401, "Please verify your account with OTP first", some true, none, none⟩
  | .loggedIn t u => ⟨"success", 200, "Logged in successfully", none, some t, some u⟩

/-- The module-level `otpStore` map of `services/otpService.js`, keyed by
email. -/
abbrev OtpMap := List (String × OtpChallenge)

/-- `otpStore.get(email)`. -/
def otpMapGet (m : OtpMap) (e : String) : Option OtpChallenge :=
  (m.find? (fun p => p.1 == e)).map (fun p => p.2)

/-- `otpStore.delete(email)`. -/
def otpMapDelete (m : OtpMap) (e : String) : OtpMap :=
  m.filter (fun p => !(p.1 == e))

/-- Outcomes of the service-layer `verifyOTP`. -/
inductive ServiceVerifyResult where
  | svcNotFound
  | svcExpired
  | svcMismatch
  | svcValid
deriving DecidableEq, Repr

/-- The service-layer `verifyOTP(email, otp)` of `services/otpService.js`
(`src/unnamed/part_001`): not-found, then expiry (which deletes), then
mismatch (which retains), then the valid case (which deletes). -/
def serviceVerifyOTP (now : Nat) (m : OtpMap) (email otp : String) :
    ServiceVerifyResult × OtpMap :=
  match otpMapGet m email with
  | none => (.svcNotFound, m)
  | some stored =>
      if stored.expiresAt < now then (.svcExpired, otpMapDelete m email)
      else if stored.code ≠ otp then (.svcMismatch, m)
      else (.svcValid, otpMapDelete m email)

/-- The `otpLimiter` ceiling from `config/security.js`: `max: 5`. -/
def otpLimiterMax : Nat := 5

/-- The `otpLimiter` window from `config/security.js`:
`windowMs: 15 * 60 * 1000`. -/
def otpLimiterWindowMs : Nat := 15 * 60 * 1000

/-- Per-client limiter state: hit count and window start. -/
structure RateState where
  count : Nat
  windowStart : Nat
deriving DecidableEq, Repr

/-- Modelled from the spec: one hit of the `express-rate-limit` fixed-window
counter (library code; spec section 4.5).  When the window has elapsed the
counter resets and a new window opens at the request time; the request is
allowed iff the count before the hit is below the ceiling. -/
def rateHit (maxHits windowMs : Nat) (s : RateState) (t : Nat) : Bool × RateState :=
  if s.windowStart + windowMs ≤ t then
    (decide (0 < maxHits), ⟨1, t⟩)
  else
    (decide (s.count < maxHits), ⟨s.count + 1, s.windowStart⟩)

/-- Allowed/rejected verdicts of a sequence of hits. -/
def rateRun (maxHits windowMs : Nat) (s : RateState) : List Nat → List Bool
  | [] => []
  | t :: ts =>
      let r := rateHit maxHits windowMs s t
      r.1 :: rateRun maxHits windowMs r.2 ts

/-- The limiter rejection, with the configured message of `otpLimiter`
(sent with HTTP 429 before any handler runs). -/
def rateLimitedResponse : ApiResponse :=
  ⟨"error", 429, "Too many OTP requests, please try again later.", none, none, none⟩

/-- The `/verify-otp` endpoint as mounted: `otpLimiter` runs first
(`app.use('/api/auth/verify-otp', otpLimiter)`), and only an allowed request
reaches the handler. -/
def verifyOtpEndpoint (env : Env) (rl : RateState) (t : Nat)
    (email code : String) (s : Store) : ApiResponse × Store × RateState :=
  let hit := rateHit otpLimiterMax otpLimiterWindowMs rl t
  if hit.1 = true then
    let r := verifyOtp env t email code s
    (verifyOtpResponse r.1, r.2, hit.2)
  else
    (rateLimitedResponse, s, hit.2)

/-! Helper lemmas. -/

theorem nodup_mid {α : Type} {A B : List α} {b : α} (h : (A ++ b :: B).Nodup) :
    b ∉ A ∧ b ∉ B := by
  rcases List.nodup_append.mp h with ⟨_, h2, h3⟩
  exact ⟨fun hb => h3 hb (List.mem_cons_self b B), (List.nodup_cons.mp h2).1⟩

theorem eq_of_nodup_map {α β : Type} (f : α → β) (l : List α)
    (h : (l.map f).Nodup) (a : α) (ha : a ∈ l) (b : α) (hb : b ∈ l)
    (hf : f a = f b) : a = b := by
  induction l with
  | nil => simp at ha
  | cons x t ih =>
    rw [List.map_cons] at h
    rcases List.nodup_cons.mp h with ⟨hx, ht⟩
    rcases List.mem_cons.mp ha with rfl | ha'
    · rcases List.mem_cons.mp hb with rfl | hb'
      · rfl
      · exact absurd (hf ▸ List.mem_map_of_mem f hb') hx
    · rcases List.mem_cons.mp hb with rfl | hb'
      · exact absurd (hf ▸ List.mem_map_of_mem f ha') hx
      · exact ih ht ha' hb'

theorem updateFirst_decomp (p : User → Bool) (f : User → User) (s : Store)
    (u : User) (h : s.find? p = some u) :
    ∃ l r, s = l ++ u :: r ∧ updateFirst p f s = l ++ f u :: r := by
  induction s with
  | nil => simp at h
  | cons a t ih =>
    by_cases hp : p a
    · rw [List.find?_cons_of_pos _ hp] at h
      obtain rfl : a = u := Option.some.inj h
      exact ⟨[], t, rfl, by simp [updateFirst, hp]⟩
    · rw [List.find?_cons_of_neg _ (by simpa using hp)] at h
      obtain ⟨l, r, hs, hu⟩ := ih h
      exact ⟨a :: l, r, by simp [hs], by simp [updateFirst, hp, hu]⟩

theorem mem_updateFirst (p : User → Bool) (f : User → User) (s : Store)
    (v : User) (hv : v ∈ updateFirst p f s) :
    (∃ u, s.find? p = some u ∧ v = f u) ∨ v ∈ s := by
  induction s with
  | nil => simp [updateFirst] at hv
  | cons a t ih =>
    by_cases hp : p a
    · simp only [updateFirst, if_pos hp] at hv
      rcases List.mem_cons.mp hv with rfl | h
      · exact Or.inl ⟨a, List.find?_cons_of_pos _ hp, rfl⟩
      · exact Or.inr (List.mem_cons_of_mem _ h)
    · simp only [updateFirst, if_neg hp] at hv
      rcases List.mem_cons.mp hv with rfl | h
      · exact Or.inr (List.mem_cons_self _ _)
      · rcases ih h with ⟨u, hu, hfu⟩ | hmem
        · exact Or.inl ⟨u, by
            rw [List.find?_cons_of_neg _ (by simpa using hp)]; exact hu, hfu⟩
        · exact Or.inr (List.mem_cons_of_mem _ hmem)

theorem find?_updateFirst_pres (p : User → Bool) (f : User → User)
    (hf : ∀ x, p x = true → p (f x) = true) (s : Store) :
    (updateFirst p f s).find? p = (s.find? p).map f := by
  induction s with
  | nil => simp [updateFirst]
  | cons a t ih =>
    by_cases hp : p a
    · simp only [updateFirst, if_pos hp]
      rw [List.find?_cons_of_pos _ (hf a hp), List.find?_cons_of_pos _ hp]
      rfl
    · simp only [updateFirst, if_neg hp]
      rw [List.find?_cons_of_neg _ (by simpa using hp),
        List.find?_cons_of_neg _ (by simpa using hp)]
      exact ih

theorem verifyOtp_valid_elim (env : Env) (now : Nat) (email code : String)
    (s : Store) (h : ((verifyOtp env now email code s).1).isValid = true) :
    ∃ u ch, s.find? (fun v => v.email == email) = some u ∧ u.otp = some ch ∧
      ch.code = code ∧ ¬ ch.expiresAt < now ∧
      (verifyOtp env now email code s).2 =
        updateFirst (fun v => v.email == email)
          (fun v => { v with isVerified := true, otp := none }) s ∧
      foundId s email = some u.id := by
  by_cases h0 : email = "" ∨ code = ""
  · simp [verifyOtp, h0, VerifyOtpResult.isValid] at h
  · rcases hfind : s.find? (fun v => v.email == email) with _ | u
    · simp [verifyOtp, h0, hfind, VerifyOtpResult.isValid] at h
    · rcases hotp : u.otp with _ | ch
      · simp [verifyOtp, h0, hfind, hotp, VerifyOtpResult.isValid] at h
      · by_cases hc : ch.code ≠ code
        · simp [verifyOtp, h0, hfind, hotp, hc, VerifyOtpResult.isValid] at h
        · by_cases he : ch.expiresAt < now
          · simp [verifyOtp, h0, hfind, hotp, hc, he, VerifyOtpResult.isValid] at h
          · push_neg at hc
            exact ⟨u, ch, hfind, hotp, hc, he,
              by simp [verifyOtp, h0, hfind, hotp, hc, he],
              by simp [foundId, hfind]⟩

theorem verifyOtp_store_cases (env : Env) (now : Nat) (email code : String)
    (s : Store) :
    (verifyOtp env now email code s).2 = s ∨
    (verifyOtp env now email code s).2 =
      updateFirst (fun v => v.email == email)
        (fun v => { v with isVerified := true, otp := none }) s := by
  by_cases h0 : email = "" ∨ code = ""
  · exact Or.inl (by simp [verifyOtp, h0])
  · rcases hfind : s.find? (fun v => v.email == email) with _ | u
    · exact Or.inl (by simp [verifyOtp, h0, hfind])
    · rcases hotp : u.otp with _ | ch
      · exact Or.inl (by simp [verifyOtp, h0, hfind, hotp])
      · by_cases hc : ch.code ≠ code
        · exact Or.inl (by simp [verifyOtp, h0, hfind, hotp, hc])
        · by_cases he : ch.expiresAt < now
          · exact Or.inl (by simp [verifyOtp, h0, hfind, hotp, hc, he])
          · exact Or.inr (by simp [verifyOtp, h0, hfind, hotp, hc, he])

theorem resendOtp_store_cases (code : String) (now : Nat) (email : String)
    (s : Store) :
    (resendOtp code now email s).2 = s ∨
    (∃ u, s.find? (fun v => v.email == email) = some u ∧ u.isVerified = false ∧
      (resendOtp code now email s).2 =
        updateFirst (fun v => v.email == email)
          (fun v => { v with otp := some ⟨code, now + otpTtlMs⟩ }) s) := by
  by_cases h0 : email = ""
  · exact Or.inl (by simp [resendOtp, h0])
  · rcases hfind : s.find? (fun v => v.email == email) with _ | u
    · exact Or.inl (by simp [resendOtp, h0, hfind])
    · by_cases hv : u.isVerified = true
      · exact Or.inl (by simp [resendOtp, h0, hfind, hv])
      · exact Or.inr ⟨u, hfind, by simpa using hv,
          by simp [resendOtp, h0, hfind, hv]⟩

theorem register_store_cases (env : Env) (freshId : Nat) (otpCode : String)
    (now : Nat) (username email password : String) (role : Role) (s : Store) :
    (register env freshId otpCode now username email password role s).2.1 = s ∨
    (register env freshId otpCode now username email password role s).2.1 =
      s ++ [⟨freshId, username, email, password, role, false,
             some ⟨otpCode, now + otpTtlMs⟩⟩] := by
  by_cases hb : role = Role.admin ∧ env.production = true
  · exact Or.inl (by simp [register, hb])
  · rcases hd : s.find? (fun u => u.email == email || u.username == username)
      with _ | w
    · exact Or.inr (by simp [register, hb, hd])
    · exact Or.inl (by simp [register, hb, hd])

theorem otpMapGet_delete (m : OtpMap) (e : String) :
    otpMapGet (otpMapDelete m e) e = none := by
  induction m with
  | nil => rfl
  | cons p t ih =>
    by_cases hp : p.1 == e
    · simpa [otpMapDelete, List.filter_cons, hp] using ih
    · have hkeep : otpMapDelete (p :: t) e = p :: otpMapDelete t e := by
        simp [otpMapDelete, List.filter_cons, hp]
      rw [hkeep]
      simp only [otpMapGet]
      rw [List.find?_cons_of_neg _ (by simpa using hp)]
      simpa [otpMapGet] using ih

theorem consumed_after_valid (env : Env) (now : Nat) (email code : String)
    (s : Store) (i : Nat)
    (hnodup : (s.map User.id).Nodup)
    (hvalid : ((verifyOtp env now email code s).1).isValid = true)
    (hid : foundId s email = some i) :
    consumedFor i ((verifyOtp env now email code s).2) := by
  obtain ⟨u, ch, hfind, hotp, hc, he, hs2, hfid⟩ :=
    verifyOtp_valid_elim env now email code s hvalid
  have hui : u.id = i := by
    rw [hfid] at hid
    exact Option.some.inj hid
  rw [hs2]
  obtain ⟨l, r, hsplit, hupd⟩ := updateFirst_decomp _ _ s u hfind
  rw [hupd]
  have hnm : u.id ∉ l.map User.id ∧ u.id ∉ r.map User.id := by
    have hmid : ((l.map User.id) ++ u.id :: (r.map User.id)).Nodup := by
      simpa [hsplit] using hnodup
    exact nodup_mid hmid
  intro v hv hvi
  rcases List.mem_append.mp hv with hvl | hvm
  · exfalso
    apply hnm.1
    have hvin : v.id ∈ l.map User.id := List.mem_map_of_mem User.id hvl
    rwa [hvi, ← hui] at hvin
  · rcases List.mem_cons.mp hvm with rfl | hvr
    · exact ⟨rfl, rfl⟩
    · exfalso
      apply hnm.2
      have hvin : v.id ∈ r.map User.id := List.mem_map_of_mem User.id hvr
      rwa [hvi, ← hui] at hvin

theorem consumed_step (env : Env) (i : Nat) (op : AuthOp) (s : Store)
    (hop : opAvoidsId i op = true) (h : consumedFor i s) :
    consumedFor i (applyOp env op s) := by
  cases op with
  | registerOp fid code now un em pw r =>
    rcases register_store_cases env fid code now un em pw r s with hs | hs
    · simpa [applyOp, hs] using h
    · simp only [applyOp, hs]
      intro v hv hvi
      rcases List.mem_append.mp hv with hvs | hvn
      · exact h v hvs hvi
      · exfalso
        rw [List.mem_singleton] at hvn
        subst hvn
        simp [opAvoidsId] at hop
        exact hop (by simpa using hvi)
  | verifyOtpOp now em c =>
    rcases verifyOtp_store_cases env now em c s with hs | hs
    · simpa [applyOp, hs] using h
    · simp only [applyOp, hs]
      intro v hv hvi
      rcases mem_updateFirst _ _ s v hv with ⟨w, hw, rfl⟩ | hvs
      · exact ⟨rfl, rfl⟩
      · exact h v hvs hvi
  | resendOtpOp c now em =>
    rcases resendOtp_store_cases c now em s with hs | ⟨u, hfind, hunv, hs⟩
    · simpa [applyOp, hs] using h
    · simp only [applyOp, hs]
      intro v hv hvi
      rcases mem_updateFirst _ _ s v hv with ⟨w, hw, rfl⟩ | hvs
      · exfalso
        have hwmem : w ∈ s := List.mem_of_find?_eq_some hw
        have hwu : w = u := by
          rw [hfind] at hw
          exact (Option.some.inj hw).symm
        have hver := (h w hwmem (by simpa using hvi)).1
        rw [hwu, hunv] at hver
        exact Bool.false_ne_true hver
      · exact h v hvs hvi
  | loginOp em pw => simpa [applyOp] using h
  | logoutOp => simpa [applyOp] using h
  | updateRoleOp a t r =>
    simp only [applyOp, adminUpdateRole]
    by_cases hself : t = a
    · simpa [hself] using h
    · simp only [if_neg hself]
      intro v hv hvi
      rcases List.mem_map.mp hv with ⟨w, hw, hfw⟩
      by_cases hwt : w.id = t
      · rw [if_pos hwt] at hfw
        subst hfw
        exact h w hw (by simpa using hvi)
      · rw [if_neg hwt] at hfw
        subst hfw
        exact h w hw hvi
  | deleteUserOp a t =>
    simp only [applyOp, adminDeleteUser]
    by_cases hself : t = a
    · simpa [hself] using h
    · simp only [if_neg hself]
      intro v hv hvi
      exact h v (List.mem_of_mem_filter hv) hvi

theorem consumed_run (env : Env) (i : Nat) (tr : List AuthOp) :
    ∀ s : Store, (∀ op ∈ tr, opAvoidsId i op = true) → consumedFor i s →
      consumedFor i (applyOps env tr s) := by
  induction tr with
  | nil =>
    intro s _ h
    simpa [applyOps] using h
  | cons op tr ih =>
    intro s hops h
    have h1 : consumedFor i (applyOp env op s) :=
      consumed_step env i op s (hops op (List.mem_cons_self _ _)) h
    have hstep : applyOps env (op :: tr) s = applyOps env tr (applyOp env op s) := rfl
    rw [hstep]
    exact ih _ (fun o ho => hops o (List.mem_cons_of_mem _ ho)) h1

theorem consumed_no_valid (env : Env) (i : Nat) (now : Nat) (email code : String)
    (s : Store) (h : consumedFor i s)
    (hv : ((verifyOtp env now email code s).1).isValid = true) :
    foundId s email ≠ some i := by
  obtain ⟨u, ch, hfind, hotp, _, _, _, hfid⟩ :=
    verifyOtp_valid_elim env now email code s hv
  rw [hfid]
  intro heq
  have hui : u.id = i := Option.some.inj heq
  have hnone := (h u (List.mem_of_find?_eq_some hfind) hui).2
  rw [hnone] at hotp
  exact Option.noConfusion hotp

/-- Claim C1: once an OTP verification call has returned Valid for an
identity (consuming the stored challenge and marking the identity verified),
every later OTP verification call that would resolve to that identity — with
any code, under any interleaving of server operations that does not register
a new document under the same Mongo id — never returns Valid again. -/
theorem otp_single_use (env : Env) (s : Store) (email code : String) (now : Nat)
    (i : Nat)
    (hnodup : (s.map User.id).Nodup)
    (hvalid : ((verifyOtp env now email code s).1).isValid = true)
    (hid : foundId s email = some i)
    (tr : List AuthOp) (htr : ∀ op ∈ tr, opAvoidsId i op = true)
    (email2 code2 : String) (now2 : Nat)
    (hvalid2 : ((verifyOtp env now2 email2 code2
        (applyOps env tr ((verifyOtp env now email code s).2))).1).isValid = true) :
    foundId (applyOps env tr ((verifyOtp env now email code s).2)) email2 ≠ some i := by
  have h1 := consumed_after_valid env now email code s i hnodup hvalid hid
  have h2 := consumed_run env i tr _ htr h1
  exact consumed_no_valid env i now2 email2 code2 _ h2 hvalid2

/-- Concrete instance of `otp_single_use`: after Alice consumes her code, a
trace registers Eve; a later Valid verification (Eve consuming her own code)
is not attributed to Alice's identity. -/
theorem otp_single_use_witness :
    foundId (applyOps ⟨false, 7, 1000⟩
        [AuthOp.registerOp 2 "555555" 2 "eve" "e@x.com" "pw" Role.reader]
        ((verifyOtp ⟨false, 7, 1000⟩ 0 "a@x.com" "123456"
            [⟨1, "alice", "a@x.com", "pw", Role.reader, false,
              some ⟨"123456", 600000⟩⟩]).2)) "e@x.com" ≠ some 1 :=
  otp_single_use ⟨false, 7, 1000⟩
    [⟨1, "alice", "a@x.com", "pw", Role.reader, false, some ⟨"123456", 600000⟩⟩]
    "a@x.com" "123456" 0 1 (by decide) (by decide) (by decide)
    [AuthOp.registerOp 2 "555555" 2 "eve" "e@x.com" "pw" Role.reader]
    (by decide) "e@x.com" "555555" 5 (by decide)

/-- Claim C2 counterexample: with an expired challenge (expiry 5, now 10),
submitting a differing code yields the Invalid-OTP rejection, not Expired;
and submitting the matching code yields the Expired rejection with the
store unchanged — the stored challenge is not removed. -/
theorem expired_challenge_counterexample :
    verifyOtp ⟨false, 0, 1000⟩ 10 "b@x.com" "222222"
        [⟨1, "bob", "b@x.com", "pw", Role.reader, false, some ⟨"111111", 5⟩⟩]
      = (.invalidOtp,
         [⟨1, "bob", "b@x.com", "pw", Role.reader, false, some ⟨"111111", 5⟩⟩])
    ∧ verifyOtp ⟨false, 0, 1000⟩ 10 "b@x.com" "111111"
        [⟨1, "bob", "b@x.com", "pw", Role.reader, false, some ⟨"111111", 5⟩⟩]
      = (.otpExpired,
         [⟨1, "bob", "b@x.com", "pw", Role.reader, false, some ⟨"111111", 5⟩⟩]) :=
  ⟨by decide, by decide⟩

/-- Claim C2 (amended): in the `/verify-otp` handler an expired challenge
yields the Expired rejection only when the submitted code matches the stored
code, and even then the stored challenge is retained, not removed; a
differing code yields the Invalid-OTP rejection, the expiry never being
consulted.  The service-layer `verifyOTP` does satisfy the original claim:
there an expired challenge yields the Expired rejection regardless of the
submitted code and is removed as a side effect. -/
theorem expired_challenge_behavior (env : Env) (now : Nat) (email code : String)
    (s : Store) (u : User) (ch : OtpChallenge)
    (m : OtpMap) (e2 c2 : String) (st : OtpChallenge)
    (hne : ¬ email = "") (hnc : ¬ code = "")
    (hfind : s.find? (fun v => v.email == email) = some u)
    (hotp : u.otp = some ch) (hexp : ch.expiresAt < now)
    (hm : otpMapGet m e2 = some st) (hexp2 : st.expiresAt < now) :
    (ch.code = code → verifyOtp env now email code s = (.otpExpired, s))
    ∧ (ch.code ≠ code → verifyOtp env now email code s = (.invalidOtp, s))
    ∧ (serviceVerifyOTP now m e2 c2).1 = .svcExpired
    ∧ otpMapGet (serviceVerifyOTP now m e2 c2).2 e2 = none := by
  have h0 : ¬ (email = "" ∨ code = "") := by tauto
  refine ⟨?_, ?_, ?_, ?_⟩
  · intro hcc
    simp [verifyOtp, h0, hfind, hotp, hcc, hexp]
  · intro hcc
    simp [verifyOtp, h0, hfind, hotp, hcc]
  · simp [serviceVerifyOTP, hm, hexp2]
  · simp [serviceVerifyOTP, hm, hexp2, otpMapGet_delete]

/-- Concrete instance of `expired_challenge_behavior`. -/
theorem expired_challenge_behavior_witness :
    (("111111" : String) = "111111" →
      verifyOtp ⟨false, 0, 1000⟩ 10 "b@x.com" "111111"
          [⟨1, "bob", "b@x.com", "pw", Role.reader, false, some ⟨"111111", 5⟩⟩]
        = (.otpExpired,
           [⟨1, "bob", "b@x.com", "pw", Role.reader, false, some ⟨"111111", 5⟩⟩]))
    ∧ (("111111" : String) ≠ "111111" →
      verifyOtp ⟨false, 0, 1000⟩ 10 "b@x.com" "111111"
          [⟨1, "bob", "b@x.com", "pw", Role.reader, false, some ⟨"111111", 5⟩⟩]
        = (.invalidOtp,
           [⟨1, "bob", "b@x.com", "pw", Role.reader, false, some ⟨"111111", 5⟩⟩]))
    ∧ (serviceVerifyOTP 10 [("b@x.com", ⟨"111111", 5⟩)] "b@x.com" "222222").1
        = .svcExpired
    ∧ otpMapGet
        (serviceVerifyOTP 10 [("b@x.com", ⟨"111111", 5⟩)] "b@x.com" "222222").2
        "b@x.com" = none :=
  expired_challenge_behavior ⟨false, 0, 1000⟩ 10 "b@x.com" "111111"
    [⟨1, "bob", "b@x.com", "pw", Role.reader, false, some ⟨"111111", 5⟩⟩]
    ⟨1, "bob", "b@x.com", "pw", Role.reader, false, some ⟨"111111", 5⟩⟩
    ⟨"111111", 5⟩ [("b@x.com", ⟨"111111", 5⟩)] "b@x.com" "222222" ⟨"111111", 5⟩
    (by decide) (by decide) (by decide) (by decide) (by decide) (by decide)
    (by decide)

/-- Claim C3 counterexample: an identity with no live challenge and an
identity with an unexpired challenge and a differing code receive the very
same outward rejection (HTTP 400, "Invalid OTP") — the no-challenge case is
not distinguishable from the mismatch case. -/
theorem rejection_indistinct_counterexample :
    verifyOtpResponse (verifyOtp ⟨false, 0, 1000⟩ 50 "a@x.com" "000000"
        [⟨1, "alice", "a@x.com", "pw", Role.reader, false, none⟩]).1
      = verifyOtpResponse (verifyOtp ⟨false, 0, 1000⟩ 50 "a@x.com" "000000"
        [⟨1, "alice", "a@x.com", "pw", Role.reader, false,
          some ⟨"111111", 100⟩⟩]).1 := by decide

/-- Claim C3 (amended): the `/verify-otp` rejections are: unknown identity
(404, "User not found"), Invalid OTP (400) — which covers BOTH an identity
with no live challenge and a code mismatch, so those two cases are not
distinguishable from each other — and Expired (400, "OTP has expired",
reachable only with a matching code).  The three outward rejection responses
are pairwise distinct. -/
theorem rejection_taxonomy (env : Env) (now : Nat) (email code : String)
    (s : Store) (u : User) (ch : OtpChallenge)
    (hne : ¬ email = "") (hnc : ¬ code = "") :
    (s.find? (fun v => v.email == email) = none →
      verifyOtpResponse (verifyOtp env now email code s).1
        = ⟨"fail", 404, "User not found", none, none, none⟩)
    ∧ (s.find? (fun v => v.email == email) = some u → u.otp = none →
      verifyOtpResponse (verifyOtp env now email code s).1
        = ⟨"fail", 400, "Invalid OTP", none, none, none⟩)
    ∧ (s.find? (fun v => v.email == email) = some u → u.otp = some ch →
        ch.code ≠ code →
      verifyOtpResponse (verifyOtp env now email code s).1
        = ⟨"fail", 400, "Invalid OTP", none, none, none⟩)
    ∧ (s.find? (fun v => v.email == email) = some u → u.otp = some ch →
        ch.code = code → ch.expiresAt < now →
      verifyOtpResponse (verifyOtp env now email code s).1
        = ⟨"fail", 400, "OTP has expired", none, none, none⟩)
    ∧ (⟨"fail", 404, "User not found", none, none, none⟩ : ApiResponse)
        ≠ ⟨"fail", 400, "Invalid OTP", none, none, none⟩
    ∧ (⟨"fail", 404, "User not found", none, none, none⟩ : ApiResponse)
        ≠ ⟨"fail", 400, "OTP has expired", none, none, none⟩
    ∧ (⟨"fail", 400, "Invalid OTP", none, none, none⟩ : ApiResponse)
        ≠ ⟨"fail", 400, "OTP has expired", none, none, none⟩ := by
  have h0 : ¬ (email = "" ∨ code = "") := by tauto
  refine ⟨?_, ?_, ?_, ?_, by decide, by decide, by decide⟩
  · intro hfind
    simp [verifyOtp, h0, hfind, verifyOtpResponse]
  · intro hfind hotp
    simp [verifyOtp, h0, hfind, hotp, verifyOtpResponse]
  · intro hfind hotp hcc
    simp [verifyOtp, h0, hfind, hotp, hcc, verifyOtpResponse]
  · intro hfind hotp hcc hexp
    simp [verifyOtp, h0, hfind, hotp, hcc, hexp, verifyOtpResponse]

/-- Concrete instance of `rejection_taxonomy`, at a store holding Alice with
no live challenge (so the no-challenge conjunct has true premises). -/
theorem rejection_taxonomy_witness :
    (([⟨1, "alice", "a@x.com", "pw", Role.reader, false, none⟩] : Store).find?
          (fun v => v.email == "a@x.com") = none →
      verifyOtpResponse (verifyOtp ⟨false, 0, 1000⟩ 50 "a@x.com" "000000"
          [⟨1, "alice", "a@x.com", "pw", Role.reader, false, none⟩]).1
        = ⟨"fail", 404, "User not found", none, none, none⟩)
    ∧ (([⟨1, "alice", "a@x.com", "pw", Role.reader, false, none⟩] : Store).find?
          (fun v => v.email == "a@x.com")
          = some ⟨1, "alice", "a@x.com", "pw", Role.reader, false, none⟩ →
        (⟨1, "alice", "a@x.com", "pw", Role.reader, false, none⟩ : User).otp = none →
      verifyOtpResponse (verifyOtp ⟨false, 0, 1000⟩ 50 "a@x.com" "000000"
          [⟨1, "alice", "a@x.com", "pw", Role.reader, false, none⟩]).1
        = ⟨"fail", 400, "Invalid OTP", none, none, none⟩)
    ∧ (([⟨1, "alice", "a@x.com", "pw", Role.reader, false, none⟩] : Store).find?
          (fun v => v.email == "a@x.com")
          = some ⟨1, "alice", "a@x.com", "pw", Role.reader, false, none⟩ →
        (⟨1, "alice", "a@x.com", "pw", Role.reader, false, none⟩ : User).otp
          = some ⟨"111111", 100⟩ →
        ("111111" : String) ≠ "000000" →
      verifyOtpResponse (verifyOtp ⟨false, 0, 1000⟩ 50 "a@x.com" "000000"
          [⟨1, "alice", "a@x.com", "pw", Role.reader, false, none⟩]).1
        = ⟨"fail", 400, "Invalid OTP", none, none, none⟩)
    ∧ (([⟨1, "alice", "a@x.com", "pw", Role.reader, false, none⟩] : Store).find?
          (fun v => v.email == "a@x.com")
          = some ⟨1, "alice", "a@x.com", "pw", Role.reader, false, none⟩ →
        (⟨1, "alice", "a@x.com", "pw", Role.reader, false, none⟩ : User).otp
          = some ⟨"111111", 100⟩ →
        ("111111" : String) = "000000" → (100 : Nat) < 50 →
      verifyOtpResponse (verifyOtp ⟨false, 0, 1000⟩ 50 "a@x.com" "000000"
          [⟨1, "alice", "a@x.com", "pw", Role.reader, false, none⟩]).1
        = ⟨"fail", 400, "OTP has expired", none, none, none⟩)
    ∧ (⟨"fail", 404, "User not found", none, none, none⟩ : ApiResponse)
        ≠ ⟨"fail", 400, "Invalid OTP", none, none, none⟩
    ∧ (⟨"fail", 404, "User not found", none, none, none⟩ : ApiResponse)
        ≠ ⟨"fail", 400, "OTP has expired", none, none, none⟩
    ∧ (⟨"fail", 400, "Invalid OTP", none, none, none⟩ : ApiResponse)
        ≠ ⟨"fail", 400, "OTP has expired", none, none, none⟩ :=
  rejection_taxonomy ⟨false, 0, 1000⟩ 50 "a@x.com" "000000"
    [⟨1, "alice", "a@x.com", "pw", Role.reader, false, none⟩]
    ⟨1, "alice", "a@x.com", "pw", Role.reader, false, none⟩ ⟨"111111", 100⟩
    (by decide) (by decide)

/-- Claim C4: an unknown email and a wrong password for a registered email
produce the same outward InvalidCredential response, while a correct
password for an unverified account produces the distinct Unverified
rejection carrying the requiresVerification flag. -/
theorem login_no_account_enumeration (env : Env) (now : Nat) (s : Store)
    (e1 p1 e2 p2 e3 p3 : String) (u2 u3 : User)
    (h1 : s.find? (fun u => u.email == e1) = none)
    (h2 : s.find? (fun u => u.email == e2) = some u2)
    (hp2 : correctPassword p2 u2.password = false)
    (h3 : s.find? (fun u => u.email == e3) = some u3)
    (hp3 : correctPassword p3 u3.password = true)
    (hv3 : u3.isVerified = false) :
    loginResponse (login env now e1 p1 s)
      = ⟨"fail", 401, "Incorrect email or password", none, none, none⟩
    ∧ loginResponse (login env now e2 p2 s)
      = ⟨"fail", 401, "Incorrect email or password", none, none, none⟩
    ∧ loginResponse (login env now e3 p3 s)
      = ⟨"fail", 401, "Please verify your account with OTP first", some true,
         none, none⟩
    ∧ loginResponse (login env now e3 p3 s) ≠ loginResponse (login env now e1 p1 s) := by
  refine ⟨?_, ?_, ?_, ?_⟩
  · simp [login, h1, loginResponse]
  · simp [login, h2, hp2, loginResponse]
  · simp [login, h3, hp3, hv3, loginResponse]
  · simp only [login, h1, h3, hp3, hv3]
    simp [loginResponse]

/-- Concrete instance of `login_no_account_enumeration`: Bob is registered
and verified, Carol is registered but unverified, `nobody@x.com` is unknown. -/
theorem login_no_account_enumeration_witness :
    loginResponse (login ⟨false, 0, 1000⟩ 0 "nobody@x.com" "pw"
        [⟨1, "bob", "b@x.com", "secret", Role.reader, true, none⟩,
         ⟨2, "carol", "c@x.com", "pw2", Role.reader, false, none⟩])
      = ⟨"fail", 401, "Incorrect email or password", none, none, none⟩
    ∧ loginResponse (login ⟨false, 0, 1000⟩ 0 "b@x.com" "wrong"
        [⟨1, "bob", "b@x.com", "secret", Role.reader, true, none⟩,
         ⟨2, "carol", "c@x.com", "pw2", Role.reader, false, none⟩])
      = ⟨"fail", 401, "Incorrect email or password", none, none, none⟩
    ∧ loginResponse (login ⟨false, 0, 1000⟩ 0 "c@x.com" "pw2"
        [⟨1, "bob", "b@x.com", "secret", Role.reader, true, none⟩,
         ⟨2, "carol", "c@x.com", "pw2", Role.reader, false, none⟩])
      = ⟨"fail", 401, "Please verify your account with OTP first", some true,
         none, none⟩
    ∧ loginResponse (login ⟨false, 0, 1000⟩ 0 "c@x.com" "pw2"
        [⟨1, "bob", "b@x.com", "secret", Role.reader, true, none⟩,
         ⟨2, "carol", "c@x.com", "pw2", Role.reader, false, none⟩])
      ≠ loginResponse (login ⟨false, 0, 1000⟩ 0 "nobody@x.com" "pw"
        [⟨1, "bob", "b@x.com", "secret", Role.reader, true, none⟩,
         ⟨2, "carol", "c@x.com", "pw2", Role.reader, false, none⟩]) :=
  login_no_account_enumeration ⟨false, 0, 1000⟩ 0
    [⟨1, "bob", "b@x.com", "secret", Role.reader, true, none⟩,
     ⟨2, "carol", "c@x.com", "pw2", Role.reader, false, none⟩]
    "nobody@x.com" "pw" "b@x.com" "wrong" "c@x.com" "pw2"
    ⟨1, "bob", "b@x.com", "secret", Role.reader, true, none⟩
    ⟨2, "carol", "c@x.com", "pw2", Role.reader, false, none⟩
    (by decide) (by decide) (by decide) (by decide) (by decide) (by decide)

/-- Claim C5: a token freshly minted for an identity and role verifies
successfully at mint time (for any positive ttl) and yields exactly the
minted id and role. -/
theorem token_roundtrip (secret subId ttlMs now : Nat) (role : Role)
    (h : 0 < ttlMs) :
    verifyToken secret (mint secret subId role ttlMs now) now = .ok subId role := by
  have h1 : ¬ (now + ttlMs ≤ now) := by omega
  cases role <;> simp [verifyToken, mint, sigOf, Role.tag, roleOfTag, h1]

/-- Concrete instance of `token_roundtrip`. -/
theorem token_roundtrip_witness :
    verifyToken 3 (mint 3 4 Role.author 1000 0) 0 = .ok 4 Role.author :=
  token_roundtrip 3 4 1000 0 Role.author (by decide)

/-- Claim C6: after `/resend-otp` overwrites the stored challenge of an
unverified identity with a new code, submitting any code other than the new
one (in particular the previously issued code) no longer returns Valid, and
a Valid outcome is only possible with the most recently issued code. -/
theorem reissue_invalidates_old (env : Env) (s : Store)
    (email oldCode newCode : String) (nowR nowV : Nat) (u : User)
    (hne : ¬ email = "")
    (hfind : s.find? (fun v => v.email == email) = some u)
    (hunv : u.isVerified = false)
    (hdiff : oldCode ≠ newCode) :
    ((verifyOtp env nowV email oldCode ((resendOtp newCode nowR email s).2)).1).isValid
      = false
    ∧ (∀ c t pu,
        (verifyOtp env nowV email c ((resendOtp newCode nowR email s).2)).1
          = .verified t pu → c = newCode) := by
  have hs2 : (resendOtp newCode nowR email s).2 =
      updateFirst (fun v => v.email == email)
        (fun v => { v with otp := some ⟨newCode, nowR + otpTtlMs⟩ }) s := by
    simp [resendOtp, hne, hfind, hunv]
  have hfind2 : ((resendOtp newCode nowR email s).2).find? (fun v => v.email == email)
      = some { u with otp := some ⟨newCode, nowR + otpTtlMs⟩ } := by
    rw [hs2, find?_updateFirst_pres (fun v => v.email == email)
      (fun v => { v with otp := some ⟨newCode, nowR + otpTtlMs⟩ })
      (fun x hx => hx) s, hfind]
    rfl
  constructor
  · have hd2 : newCode ≠ oldCode := Ne.symm hdiff
    by_cases h0 : email = "" ∨ oldCode = ""
    · simp [verifyOtp, h0, VerifyOtpResult.isValid]
    · simp [verifyOtp, h0, hfind2, VerifyOtpResult.isValid, hd2]
  · intro c t pu hver
    have hv : ((verifyOtp env nowV email c
        ((resendOtp newCode nowR email s).2)).1).isValid = true := by
      rw [hver]
      rfl
    obtain ⟨u', ch', hfind', hotp', hcc, _, _, _⟩ :=
      verifyOtp_valid_elim env nowV email c _ hv
    rw [hfind2] at hfind'
    obtain rfl : { u with otp := some ⟨newCode, nowR + otpTtlMs⟩ } = u' :=
      Option.some.inj hfind'
    have hch : some (⟨newCode, nowR + otpTtlMs⟩ : OtpChallenge) = some ch' := by
      simpa using hotp'
    obtain rfl : (⟨newCode, nowR + otpTtlMs⟩ : OtpChallenge) = ch' :=
      Option.some.inj hch
    exact hcc.symm

/-- Concrete instance of `reissue_invalidates_old`. -/
theorem reissue_invalidates_old_witness :
    ((verifyOtp ⟨false, 0, 1000⟩ 1 "a@x.com" "111111"
        ((resendOtp "222222" 0 "a@x.com"
          [⟨1, "alice", "a@x.com", "pw", Role.reader, false,
            some ⟨"111111", 600000⟩⟩]).2)).1).isValid = false
    ∧ (∀ c t pu,
        (verifyOtp ⟨false, 0, 1000⟩ 1 "a@x.com" c
          ((resendOtp "222222" 0 "a@x.com"
            [⟨1, "alice", "a@x.com", "pw", Role.reader, false,
              some ⟨"111111", 600000⟩⟩]).2)).1 = .verified t pu → c = "222222") :=
  reissue_invalidates_old ⟨false, 0, 1000⟩
    [⟨1, "alice", "a@x.com", "pw", Role.reader, false, some ⟨"111111", 600000⟩⟩]
    "a@x.com" "111111" "222222" 0 1
    ⟨1, "alice", "a@x.com", "pw", Role.reader, false, some ⟨"111111", 600000⟩⟩
    (by decide) (by decide) (by decide) (by decide)

/-- Claim C7 counterexample: outside production mode an admin-role
registration is not rejected — the identity is created (unverified, with an
OTP challenge) and a notification is dispatched. -/
theorem admin_registration_counterexample :
    register ⟨false, 0, 1000⟩ 1 "111111" 0 "root" "r@x.com" "pw" Role.admin []
      = (.created,
         [⟨1, "root", "r@x.com", "pw", Role.admin, false, some ⟨"111111", 600000⟩⟩],
         some ("r@x.com", "111111")) := by decide

/-- Claim C7 (amended): when the server runs in production mode, every
registration request whose requested role is admin is rejected with the
Forbidden response and no identity is created and no notification is
dispatched; outside production mode the admin role is accepted at
registration. -/
theorem admin_registration_blocked (env : Env) (freshId : Nat)
    (otpCode : String) (now : Nat) (username email password : String)
    (s : Store) (hprod : env.production = true) :
    register env freshId otpCode now username email password Role.admin s
      = (.adminBlocked, s, none) := by
  simp [register, hprod]

/-- Concrete instance of `admin_registration_blocked`. -/
theorem admin_registration_blocked_witness :
    register ⟨true, 0, 1000⟩ 1 "111111" 0 "root" "r@x.com" "pw" Role.admin []
      = (.adminBlocked, [], none) :=
  admin_registration_blocked ⟨true, 0, 1000⟩ 1 "111111" 0 "root" "r@x.com" "pw"
    [] (by decide)

/-- Claim C8 counterexample: a registration whose email already belongs to
an existing identity but which requests the admin role in production mode is
rejected by the earlier Forbidden branch, not with the duplicate-identity
rejection. -/
theorem duplicate_admin_counterexample :
    register ⟨true, 0, 1000⟩ 2 "111111" 0 "alice2" "a@x.com" "pw" Role.admin
        [⟨1, "alice", "a@x.com", "pw", Role.reader, true, none⟩]
      = (.adminBlocked,
         [⟨1, "alice", "a@x.com", "pw", Role.reader, true, none⟩], none) := by
  decide

/-- Claim C8 (amended): every registration request whose username or email
already belongs to an existing identity, and which is not an admin-role
request in production mode, fails with the duplicate-identity rejection and
performs no state mutation: the store is returned unchanged (so no identity
record and no OTP challenge is stored) and no notification is dispatched. -/
theorem duplicate_registration_no_effect (env : Env) (freshId : Nat)
    (otpCode : String) (now : Nat) (username email password : String)
    (role : Role) (s : Store) (w : User)
    (hdup : s.find? (fun u => u.email == email || u.username == username) = some w)
    (hnb : ¬ (role = Role.admin ∧ env.production = true)) :
    register env freshId otpCode now username email password role s
      = (.duplicateUser, s, none) := by
  simp [register, hnb, hdup]

/-- Concrete instance of `duplicate_registration_no_effect`. -/
theorem duplicate_registration_no_effect_witness :
    register ⟨true, 0, 1000⟩ 2 "111111" 0 "alice2" "a@x.com" "pw" Role.reader
        [⟨1, "alice", "a@x.com", "pw", Role.reader, true, none⟩]
      = (.duplicateUser,
         [⟨1, "alice", "a@x.com", "pw", Role.reader, true, none⟩], none) :=
  duplicate_registration_no_effect ⟨true, 0, 1000⟩ 2 "111111" 0 "alice2"
    "a@x.com" "pw" Role.reader
    [⟨1, "alice", "a@x.com", "pw", Role.reader, true, none⟩]
    ⟨1, "alice", "a@x.com", "pw", Role.reader, true, none⟩
    (by decide) (by decide)

theorem rateRun_getElem (maxHits windowMs : Nat) (ts : List Nat) :
    ∀ s : RateState, (∀ t ∈ ts, t < s.windowStart + windowMs) →
      ∀ k, k < ts.length →
        (rateRun maxHits windowMs s ts)[k]?
          = some (decide (s.count + k < maxHits)) := by
  induction ts with
  | nil =>
    intro s _ k hk
    simp at hk
  | cons t ts ih =>
    intro s h k hk
    have ht : t < s.windowStart + windowMs := h t (List.mem_cons_self _ _)
    have hreset : ¬ (s.windowStart + windowMs ≤ t) := by omega
    cases k with
    | zero => simp [rateRun, rateHit, hreset]
    | succ k' =>
      have hrec : (rateRun maxHits windowMs s (t :: ts))[k' + 1]?
          = (rateRun maxHits windowMs ⟨s.count + 1, s.windowStart⟩ ts)[k']? := by
        simp [rateRun, rateHit, hreset]
      rw [hrec]
      have h' : ∀ x ∈ ts,
          x < (⟨s.count + 1, s.windowStart⟩ : RateState).windowStart + windowMs :=
        fun x hx => h x (List.mem_cons_of_mem _ hx)
      rw [ih ⟨s.count + 1, s.windowStart⟩ h' k' (by simpa using hk)]
      have harith : s.count + 1 + k' = s.count + (k' + 1) := by omega
      rw [harith]

/-- Claim C9: starting from a fresh limiter window, the k-th in-window
request to `/verify-otp` is allowed through to the handler iff k < 5 (so at
most 5 reach it); and once the in-window count has reached the ceiling, any
further in-window request is answered with the RateLimited response before
the handler runs, leaving the user store untouched, regardless of the
request body. -/
theorem otp_rate_limit (ts : List Nat) (t0 : Nat)
    (hwin : ∀ t ∈ ts, t < t0 + otpLimiterWindowMs)
    (k : Nat) (hk : k < ts.length)
    (env : Env) (rl : RateState) (t : Nat) (email code : String) (s : Store)
    (hlayer : t < rl.windowStart + otpLimiterWindowMs)
    (hexceed : otpLimiterMax ≤ rl.count) :
    (rateRun otpLimiterMax otpLimiterWindowMs ⟨0, t0⟩ ts)[k]?
      = some (decide (k < otpLimiterMax))
    ∧ verifyOtpEndpoint env rl t email code s
      = (rateLimitedResponse, s, ⟨rl.count + 1, rl.windowStart⟩) := by
  constructor
  · have hbase := rateRun_getElem otpLimiterMax otpLimiterWindowMs ts ⟨0, t0⟩
      (by simpa using hwin) k hk
    simpa using hbase
  · have hreset : ¬ (rl.windowStart + otpLimiterWindowMs ≤ t) := by omega
    have hallow : ¬ (rl.count < otpLimiterMax) := by omega
    simp [verifyOtpEndpoint, rateHit, hreset, hallow]

/-- Concrete instance of `otp_rate_limit`: the sixth in-window request
(index 5) is rejected, and a request over the ceiling is answered
RateLimited even though its body carries the valid code. -/
theorem otp_rate_limit_witness :
    (rateRun otpLimiterMax otpLimiterWindowMs ⟨0, 0⟩ [0, 1, 2, 3, 4, 5])[5]?
      = some (decide (5 < otpLimiterMax))
    ∧ verifyOtpEndpoint ⟨false, 0, 1000⟩ ⟨5, 0⟩ 1 "a@x.com" "123456"
        [⟨1, "alice", "a@x.com", "pw", Role.reader, false, some ⟨"123456", 600000⟩⟩]
      = (rateLimitedResponse,
         [⟨1, "alice", "a@x.com", "pw", Role.reader, false, some ⟨"123456", 600000⟩⟩],
         ⟨6, 0⟩) :=
  otp_rate_limit [0, 1, 2, 3, 4, 5] 0 (by decide) 5 (by decide) ⟨false, 0, 1000⟩
    ⟨5, 0⟩ 1 "a@x.com" "123456"
    [⟨1, "alice", "a@x.com", "pw", Role.reader, false, some ⟨"123456", 600000⟩⟩]
    (by decide) (by decide)

/-- Claim C10: across every server operation (registration, OTP
verification, OTP resend, login, logout, admin role update, admin user
deletion), a verified user is never made unverified: if a document with the
same id exists after the operation, it is still verified. -/
theorem isVerified_monotone (env : Env) (op : AuthOp) (s : Store)
    (hnodup : (s.map User.id).Nodup)
    (hfresh : opIdFresh op s)
    (u : User) (hu : u ∈ s) (hver : u.isVerified = true)
    (v : User) (hv : v ∈ applyOp env op s) (hid : v.id = u.id) :
    v.isVerified = true := by
  cases op with
  | registerOp fid code now un em pw r =>
    simp only [applyOp] at hv
    simp only [opIdFresh] at hfresh
    rcases register_store_cases env fid code now un em pw r s with hs | hs
    · rw [hs] at hv
      rw [eq_of_nodup_map User.id s hnodup v hv u hu hid]
      exact hver
    · rw [hs] at hv
      rcases List.mem_append.mp hv with hvs | hvn
      · rw [eq_of_nodup_map User.id s hnodup v hvs u hu hid]
        exact hver
      · exfalso
        rw [List.mem_singleton] at hvn
        subst hvn
        exact hfresh u hu (by simpa using hid.symm)
  | verifyOtpOp now em c =>
    simp only [applyOp] at hv
    rcases verifyOtp_store_cases env now em c s with hs | hs
    · rw [hs] at hv
      rw [eq_of_nodup_map User.id s hnodup v hv u hu hid]
      exact hver
    · rw [hs] at hv
      rcases mem_updateFirst _ _ s v hv with ⟨w, hw, rfl⟩ | hvs
      · rfl
      · rw [eq_of_nodup_map User.id s hnodup v hvs u hu hid]
        exact hver
  | resendOtpOp c now em =>
    simp only [applyOp] at hv
    rcases resendOtp_store_cases c now em s with hs | ⟨w0, hfind0, hunv0, hs⟩
    · rw [hs] at hv
      rw [eq_of_nodup_map User.id s hnodup v hv u hu hid]
      exact hver
    · rw [hs] at hv
      rcases mem_updateFirst _ _ s v hv with ⟨w, hw, rfl⟩ | hvs
      · have hwmem : w ∈ s := List.mem_of_find?_eq_some hw
        have hwu : w = u :=
          eq_of_nodup_map User.id s hnodup w hwmem u hu (by simpa using hid)
        show w.isVerified = true
        rw [hwu]
        exact hver
      · rw [eq_of_nodup_map User.id s hnodup v hvs u hu hid]
        exact hver
  | loginOp em pw =>
    simp only [applyOp] at hv
    rw [eq_of_nodup_map User.id s hnodup v hv u hu hid]
    exact hver
  | logoutOp =>
    simp only [applyOp] at hv
    rw [eq_of_nodup_map User.id s hnodup v hv u hu hid]
    exact hver
  | updateRoleOp a tgt r =>
    simp only [applyOp, adminUpdateRole] at hv
    by_cases hself : tgt = a
    · rw [if_pos hself] at hv
      rw [eq_of_nodup_map User.id s hnodup v hv u hu hid]
      exact hver
    · rw [if_neg hself] at hv
      rcases List.mem_map.mp hv with ⟨w, hw, hfw⟩
      by_cases hwt : w.id = tgt
      · rw [if_pos hwt] at hfw
        subst hfw
        have hwu : w = u :=
          eq_of_nodup_map User.id s hnodup w hw u hu (by simpa using hid)
        show w.isVerified = true
        rw [hwu]
        exact hver
      · rw [if_neg hwt] at hfw
        subst hfw
        rw [eq_of_nodup_map User.id s hnodup w hw u hu hid]
        exact hver
  | deleteUserOp a tgt =>
    simp only [applyOp, adminDeleteUser] at hv
    by_cases hself : tgt = a
    · rw [if_pos hself] at hv
      rw [eq_of_nodup_map User.id s hnodup v hv u hu hid]
      exact hver
    · rw [if_neg hself] at hv
      rw [eq_of_nodup_map User.id s hnodup v (List.mem_of_mem_filter hv) u hu hid]
      exact hver

/-- Concrete instance of `isVerified_monotone`: a role change against a
verified admin leaves the document verified. -/
theorem isVerified_monotone_witness :
    (⟨1, "admin", "ad@x.com", "pw", Role.author, true, none⟩ : User).isVerified
      = true :=
  isVerified_monotone ⟨false, 0, 1000⟩ (AuthOp.updateRoleOp 2 1 Role.author)
    [⟨1, "admin", "ad@x.com", "pw", Role.admin, true, none⟩]
    (by decide) (by simp [opIdFresh])
    ⟨1, "admin", "ad@x.com", "pw", Role.admin, true, none⟩ (by decide) (by decide)
    ⟨1, "admin", "ad@x.com", "pw", Role.author, true, none⟩ (by decide) (by decide)

end SecureBlog
